import Mathlib

/-!  Verification development for the CoWork OS guardrail, heartbeat,
retry, pairing and tool-restriction logic, shallowly embedded from the
repository sources.  Components whose implementation files are not part
of the source snapshot (only their tests or documentation are) are
modelled from the specification text; each such definition carries a
doc comment starting with the words Modelled from the spec. -/

namespace CoWork

/-- Prefix test on character lists. -/
def charsPrefixOf : List Char → List Char → Bool
  | [], _ => true
  | _ :: _, [] => false
  | a :: as, b :: bs => a == b && charsPrefixOf as bs

/-- Contiguous-sublist test on character lists. -/
def charsContains (pat : List Char) : List Char → Bool
  | [] => charsPrefixOf pat []
  | c :: cs => charsPrefixOf pat (c :: cs) || charsContains pat cs

/-- Substring test on strings. -/
def containsSub (s pat : String) : Bool := charsContains pat.data s.data

/-- Lower-casing of a string by character. -/
def toLowerStr (s : String) : String := String.mk (s.data.map Char.toLower)

/-- Whitespace trim of a character list on both ends. -/
def trimChars (cs : List Char) : List Char :=
  ((cs.dropWhile Char.isWhitespace).reverse.dropWhile Char.isWhitespace).reverse

/-- Whitespace trim of a string on both ends. -/
def trimStr (s : String) : String := String.mk (trimChars s.data)

/-- Prefix test on strings. -/
def startsWithStr (s pat : String) : Bool := charsPrefixOf pat.data s.data

namespace Guardrail

/-- Modelled from the spec: the guardrail block and trust configuration of
GuardrailManager and ShellTools, whose implementation file is not under the
source snapshot (only its test is).  User block patterns model the
user-supplied regular expressions as substring patterns; the trust table
holds command signatures or literal trusted texts; safe commands is the
fixed allowlist of read-only command names; destructive flags mark
destructive or privilege-escalating variants. -/
structure GuardrailConfig where
  userBlockPatterns : List String
  trustTable : List String
  safeCommands : List String
  destructiveFlags : List String
deriving DecidableEq

/-- Decision record returned by the block check. -/
structure BlockDecision where
  blocked : Bool
  reason : Option String
deriving DecidableEq

/-- Modelled from the spec: normalization of the command text before block
matching (trims, case-folds). -/
def normalizeCommand (c : String) : String := toLowerStr (trimStr c)

/-- Modelled from the spec: the built-in list of destructive patterns
(privileged escalation, recursive deletion of root-level paths,
filesystem-formatting utilities, fork-bomb shapes). -/
def builtinBlockPatterns : List (String × String) :=
  [("sudo ", "privilege escalation"),
   ("rm -rf /", "recursive deletion of a root-level path"),
   ("mkfs", "filesystem formatting utility"),
   (":()\x7b", "fork bomb shape")]

/-- Modelled from the spec: GuardrailManager.isCommandBlocked, a pure
function testing the normalized command against built-in destructive
patterns and user-supplied patterns, first match wins. -/
def isCommandBlocked (cfg : GuardrailConfig) (c : String) : BlockDecision :=
  let n := normalizeCommand c
  match builtinBlockPatterns.find? (fun p => containsSub n p.1) with
  | some p => ⟨true, some p.2⟩
  | none =>
    match cfg.userBlockPatterns.find? (fun p => containsSub n p) with
    | some p => ⟨true, some p⟩
    | none => ⟨false, none⟩

/-- Modelled from the spec: tokenization of a command line respecting
quoted substrings.  The accumulator holds the current token reversed; the
flag records whether the scan is inside a double-quoted region. -/
def tokenizeChars (inQuote : Bool) (acc : List Char) : List Char → List String
  | [] => if acc.isEmpty then [] else [String.mk acc.reverse]
  | c :: cs =>
    if c == '"' then tokenizeChars (!inQuote) (c :: acc) cs
    else if c == ' ' && !inQuote then
      if acc.isEmpty then tokenizeChars false [] cs
      else String.mk acc.reverse :: tokenizeChars false [] cs
    else tokenizeChars inQuote (c :: acc) cs

/-- Token list of a command line. -/
def tokenize (c : String) : List String := tokenizeChars false [] c.data

/-- Flag tokens start with a dash and are kept verbatim. -/
def isFlagToken (t : String) : Bool := startsWithStr t "-"

/-- Quoted-string tokens. -/
def isQuotedToken (t : String) : Bool := startsWithStr t "\""

/-- Bare numeric literal tokens. -/
def isNumericToken (t : String) : Bool :=
  !t.data.isEmpty && t.data.all (fun c => c.isDigit || c == '.')

/-- Absolute or relative path tokens. -/
def isPathToken (t : String) : Bool :=
  startsWithStr t "/" || startsWithStr t "./" || startsWithStr t "../" || startsWithStr t "~/"

/-- URL tokens. -/
def isUrlToken (t : String) : Bool :=
  startsWithStr t "http://" || startsWithStr t "https://"

/-- Identifier tokens resembling generated IDs. -/
def looksLikeGeneratedId (t : String) : Bool :=
  decide (16 ≤ t.data.length) &&
    t.data.all (fun c => c.isAlphanum || c == '-' || c == '_') &&
    t.data.any (fun c => c.isDigit)

/-- Modelled from the spec: argument-like tokens are absolute or relative
paths, quoted strings, bare numeric literals, URLs, or identifiers
resembling generated IDs, and never flag tokens. -/
def isArgumentLike (t : String) : Bool :=
  !isFlagToken t &&
    (isQuotedToken t || isPathToken t || isNumericToken t || isUrlToken t ||
      looksLikeGeneratedId t)

/-- Fixed placeholder substituted for argument-like tokens. -/
def placeholderToken : String := "<arg>"

/-- Classification of one non-leading token of the command line. -/
def classifyToken (t : String) : String :=
  if isFlagToken t then t
  else if isArgumentLike t then placeholderToken
  else t

/-- Modelled from the spec: the token list of the command signature keeps
the command name verbatim and classifies every later token. -/
def signatureTokens (c : String) : List String :=
  match tokenize c with
  | [] => []
  | name :: rest => name :: rest.map classifyToken

/-- Modelled from the spec: ShellTools.getCommandSignature, the canonical
signature string of a command line. -/
def getCommandSignature (c : String) : String :=
  String.intercalate " " (signatureTokens c)

/-- Leading token of a command line. -/
def commandName (c : String) : String :=
  match tokenize c with
  | [] => ""
  | name :: _ => name

/-- Modelled from the spec: GuardrailManager.isCommandTrusted checks the
literal text or the command signature against the trust table. -/
def isCommandTrusted (cfg : GuardrailConfig) (c : String) : Bool :=
  cfg.trustTable.contains (trimStr c) || cfg.trustTable.contains (getCommandSignature c)

/-- Does some flag of the command mark a destructive variant. -/
def hasDestructiveFlag (cfg : GuardrailConfig) (c : String) : Bool :=
  (tokenize c).any (fun t => isFlagToken t && cfg.destructiveFlags.contains t)

/-- Modelled from the spec: ShellTools.isAutoApprovalSafe, the deny-wins
aggregation point.  It returns false immediately when the block check
matches, and otherwise approves only a trusted signature or a safe
command name carrying no destructive flag. -/
def isAutoApprovalSafe (cfg : GuardrailConfig) (c : String) : Bool :=
  if (isCommandBlocked cfg c).blocked then false
  else if cfg.trustTable.contains (getCommandSignature c) then true
  else cfg.safeCommands.contains (commandName c) && !hasDestructiveFlag cfg c

end Guardrail

namespace ToolRegistry

/-- Risk categories of tools. -/
inductive RiskCategory
  | read
  | write
  | delete
  | network
  | shell
deriving DecidableEq

/-- Workspace permission classes, one per risk category. -/
structure WorkspacePermissions where
  read : Bool
  write : Bool
  delete : Bool
  network : Bool
  shell : Bool
deriving DecidableEq

/-- Permission class of a risk category. -/
def permissionFor (p : WorkspacePermissions) : RiskCategory → Bool
  | .read => p.read
  | .write => p.write
  | .delete => p.delete
  | .network => p.network
  | .shell => p.shell

/-- Modelled from the spec: ToolRegistry.isToolAllowed, whose
implementation file is not under the source snapshot (only its test is).
A tool is allowed unless the active restriction set contains a wildcard
or the tool name, or the permission class of its risk category is
disabled; the wildcard is a hard override. -/
def isToolAllowed (perms : WorkspacePermissions)
    (categoryOf : String → RiskCategory) (restrictions : List String)
    (toolName : String) : Bool :=
  if restrictions.contains "*" then false
  else if restrictions.contains toolName then false
  else permissionFor perms (categoryOf toolName)

end ToolRegistry

namespace Gate

/-- Pairing session state: code, expiry, failed-attempt counter and
lockout deadline. -/
structure PairingSession where
  code : String
  expiresAt : Int
  failedAttempts : Nat
  lockoutUntil : Int
deriving DecidableEq

/-- Outcome of one pairing-code attempt. -/
inductive PairingOutcome
  | accepted
  | rejectedLockedOut
  | rejectedInvalid
deriving DecidableEq

/-- Lockout threshold of consecutive failures. -/
def maxFailedAttempts : Nat := 5

/-- Lockout duration in milliseconds. -/
def lockoutDurationMs : Int := 15 * 60 * 1000

/-- Modelled from the spec: the pairing-mode check of ChannelSecurityGate,
whose implementation file is not under the source snapshot.  During
lockout every attempt is rejected, even a correct code; a correct,
unexpired code is otherwise accepted; a failure increments the counter
and the fifth consecutive failure starts a fifteen-minute lockout. -/
def attemptPairing (s : PairingSession) (now : Int) (presented : String) :
    PairingSession × PairingOutcome :=
  if now < s.lockoutUntil then (s, .rejectedLockedOut)
  else if presented == s.code && decide (now ≤ s.expiresAt) then
    ({ s with failedAttempts := 0 }, .accepted)
  else if maxFailedAttempts ≤ s.failedAttempts + 1 then
    ({ s with failedAttempts := s.failedAttempts + 1,
              lockoutUntil := now + lockoutDurationMs }, .rejectedInvalid)
  else ({ s with failedAttempts := s.failedAttempts + 1 }, .rejectedInvalid)

/-- Session state after a sequence of attempts, each given by its time and
the presented code. -/
def runFailures (s : PairingSession) : List (Int × String) → PairingSession
  | [] => s
  | (t, c) :: rest => runFailures (attemptPairing s t c).1 rest

end Gate

namespace Search

/-- Modelled from the spec: the markers classifying a provider-call error
message as transient (network or rate-limit class), for
SearchProviderFactory.isTransientSearchError whose implementation file is
not under the source snapshot (only its test is). -/
def transientErrorMarkers : List String :=
  ["rate limit", "429", "too many requests", "timeout", "etimedout",
   "econnreset", "eai_again", "socket hang up", "network", "fetch failed",
   "502", "503", "504", "service unavailable", "bad gateway"]

/-- Modelled from the spec: transient-error classification of an optional
error message, case-insensitive marker search; a missing message is not
transient. -/
def isTransientSearchError : Option String → Bool
  | none => false
  | some m => transientErrorMarkers.any (fun p => containsSub (toLowerStr m) p)

/-- Outcome of a retried search: final result, number of attempts made,
and the backoff delays slept between attempts. -/
structure RetryOutcome (R : Type) where
  result : Except String R
  attempts : Nat
  delays : List Nat

/-- Modelled from the spec: the retry loop of
SearchProviderFactory.searchWithRetry.  The provider call of attempt i is
search i and either returns a value or fails with an optional message.
A transient failure with attempts remaining sleeps 400 times the attempt
number and retries; any other failure surfaces at once, with a fallback
message when the error carried none. -/
def retryGo {R : Type} (search : Nat → Except (Option String) R) :
    Nat → Nat → RetryOutcome R
  | _, 0 => ⟨Except.error "Search failed", 0, []⟩
  | attempt, fuel + 1 =>
    match search attempt with
    | Except.ok r => ⟨Except.ok r, 1, []⟩
    | Except.error msg =>
      if isTransientSearchError msg && decide (0 < fuel) then
        let rest := retryGo search (attempt + 1) fuel
        ⟨rest.result, rest.attempts + 1, 400 * attempt :: rest.delays⟩
      else ⟨Except.error (msg.getD "Search failed"), 1, []⟩

/-- Modelled from the spec: SearchProviderFactory.searchWithRetry with a
bounded maximum number of attempts. -/
def searchWithRetry {R : Type} (search : Nat → Except (Option String) R)
    (maxAttempts : Nat) : RetryOutcome R :=
  retryGo search 1 maxAttempts

end Search

namespace Executor

/-- Artifact observed in a tool output, with its modification time. -/
structure Artifact where
  path : String
  modified : Int
deriving DecidableEq

/-- Step status values. -/
inductive StepStatus
  | pending
  | running
  | completed
  | failed
deriving DecidableEq

/-- Step record: identity, description, status and optional error. -/
structure Step where
  id : String
  description : String
  status : StepStatus
  error : Option String
deriving DecidableEq

/-- Modelled from the spec: detection of steps whose description marks
them as verification steps. -/
def isVerificationStep (desc : String) : Bool :=
  containsSub (toLowerStr desc) "verify" || containsSub (toLowerStr desc) "verification"

/-- Explicit error recorded when a verification step finds no evidence. -/
def noEvidenceError : String := "no corroborating evidence"

/-- Modelled from the spec: the verification branch of
TaskExecutor.executeStep, whose implementation file is not under the
source snapshot (only its test is).  A verification step succeeds only
when the tool output holds a matching artifact whose modification time is
newer than the start of the step, regardless of the planner assertion;
a non-verification step follows the planner outcome. -/
def executeStep (step : Step) (stepStartTime : Int)
    (matchesPattern : Artifact → Bool) (artifacts : List Artifact)
    (plannerAssertsSuccess : Bool) : Step :=
  if isVerificationStep step.description then
    if artifacts.any (fun a => matchesPattern a && decide (stepStartTime < a.modified)) then
      { step with status := .completed, error := none }
    else { step with status := .failed, error := some noEvidenceError }
  else if plannerAssertsSuccess then { step with status := .completed, error := none }
  else { step with status := .failed, error := some "step failed" }

end Executor

namespace Heartbeat

/-- Mention record fields read by the heartbeat service. -/
structure AgentMention where
  workspaceId : Option String
  createdAt : Int
  mentionType : String
  context : Option String
deriving DecidableEq

/-- Task record fields read by the heartbeat service. -/
structure Task where
  id : String
  workspaceId : String
  updatedAt : Option Int
  status : String
  title : String
deriving DecidableEq

/-- Activity record fields read by the heartbeat service. -/
structure Activity where
  id : String
deriving DecidableEq

/-- Agent role fields read by the heartbeat service. -/
structure AgentRole where
  id : String
  displayName : String
  heartbeatEnabled : Bool
  heartbeatIntervalMinutes : Option Int
  heartbeatStaggerOffset : Option Int
  lastHeartbeatAt : Option Int
deriving DecidableEq

/-- Status values of a heartbeat run result. -/
inductive HeartbeatRunStatus
  | ok
  | workDone
  | error
deriving DecidableEq

/-- Result record of one heartbeat run. -/
structure HeartbeatResult where
  agentRoleId : String
  status : HeartbeatRunStatus
  pendingMentions : Nat
  assignedTasks : Nat
  relevantActivities : Nat
  error : Option String
  taskCreated : Option String
deriving DecidableEq

/-- Lifecycle event types emitted by the heartbeat service. -/
inductive HeartbeatEventType
  | started
  | workFound
  | noWork
  | completed
  | errored
deriving DecidableEq

/-- Lifecycle event emitted by the heartbeat service. -/
structure HeartbeatEvent where
  type : HeartbeatEventType
  agentRoleId : String
  agentName : String
  timestamp : Int
  result : Option HeartbeatResult
deriving DecidableEq

/-- Heartbeat status values stored on the agent role. -/
inductive HeartbeatStatus
  | idle
  | running
  | sleeping
  | errorState
deriving DecidableEq

/-- Record of one createTask call issued by the heartbeat service. -/
structure TaskCreation where
  workspaceId : String
  prompt : String
  title : String
  agentRoleId : Option String
deriving DecidableEq

/-- Record of one heartbeat status update written to the repository. -/
structure StatusUpdate where
  agentRoleId : String
  status : HeartbeatStatus
  lastHeartbeatAt : Option Int
deriving DecidableEq

/-- Work items found during a heartbeat check. -/
structure WorkItems where
  pendingMentions : List AgentMention
  assignedTasks : List Task
  relevantActivities : List Activity
deriving DecidableEq

/-- External collaborators of HeartbeatService, passed as data: the
repositories, the task factory (modelled by the identifier it assigns),
and the persona builder. -/
structure HeartbeatDeps where
  findById : String → Option AgentRole
  pendingMentionsFor : String → List AgentMention
  tasksForAgent : String → List Task
  getWorkspacePath : String → Option String
  defaultWorkspaceId : Option String
  defaultWorkspacePath : Option String
  createTaskId : TaskCreation → String
  rolePersona : AgentRole → Option String → Option String

/-- Candidate entry of the workspace-selection map. -/
structure Candidate where
  workspaceId : String
  score : Int
  priority : Int
deriving DecidableEq

/-- Replacement step of the candidate map: a later entry for the same
workspace replaces the stored one exactly when its score is larger, or
equal with a larger priority, keeping the insertion position. -/
def updateCandidate (wid : String) (score priority : Int) :
    List Candidate → List Candidate
  | [] => []
  | c :: cs =>
    if c.workspaceId = wid then
      (if score > c.score ∨ (score = c.score ∧ priority > c.priority) then
        ⟨wid, score, priority⟩ else c) :: cs
    else c :: updateCandidate wid score priority cs

/-- Membership test of the candidate map. -/
def containsCandidate (wid : String) (cs : List Candidate) : Bool :=
  cs.any (fun c => c.workspaceId == wid)

/-- Was addCandidate of HeartbeatService.selectWorkspaceForWork: skips a
missing or blank workspace id and otherwise inserts or replaces the map
entry of the trimmed id. -/
def addCandidate (cands : List Candidate) (raw : Option String)
    (score priority : Int) : List Candidate :=
  let wid := match raw with
    | some s => trimStr s
    | none => ""
  if wid = "" then cands
  else if containsCandidate wid cands then updateCandidate wid score priority cands
  else cands ++ [⟨wid, score, priority⟩]

/-- Candidate map built from the work items: mentions contribute their
creation time with priority 2, tasks their update time (0 when absent)
with priority 1, in source order. -/
def buildCandidates (work : WorkItems) : List Candidate :=
  let afterMentions := work.pendingMentions.foldl
    (fun acc m => addCandidate acc m.workspaceId m.createdAt 2) []
  work.assignedTasks.foldl
    (fun acc t => addCandidate acc (some t.workspaceId) (t.updatedAt.getD 0) 1)
    afterMentions

/-- Sort order of the selection comparator: larger score first, then
larger priority, then lexically smaller workspace id. -/
def candBefore (a b : Candidate) : Prop :=
  b.score < a.score ∨
    (a.score = b.score ∧
      (b.priority < a.priority ∨
        (a.priority = b.priority ∧ a.workspaceId ≤ b.workspaceId)))

instance (a b : Candidate) : Decidable (candBefore a b) := by
  unfold candBefore
  infer_instance

/-- Insertion step of the comparator sort. -/
def insertCand (c : Candidate) : List Candidate → List Candidate
  | [] => [c]
  | d :: ds => if candBefore c d then c :: d :: ds else d :: insertCand c ds

/-- Comparator sort of the candidate list. -/
def sortCandidates : List Candidate → List Candidate
  | [] => []
  | c :: cs => insertCand c (sortCandidates cs)

/-- Selected workspace of a heartbeat run. -/
structure SelectedWorkspace where
  workspaceId : String
  workspacePath : String
deriving DecidableEq

/-- First sorted candidate whose workspace path resolves to a non-blank
string. -/
def firstWithPath (deps : HeartbeatDeps) : List Candidate → Option SelectedWorkspace
  | [] => none
  | c :: cs =>
    match deps.getWorkspacePath c.workspaceId with
    | some p => if trimStr p = "" then firstWithPath deps cs else some ⟨c.workspaceId, p⟩
    | none => firstWithPath deps cs

/-- Embeds HeartbeatService.selectWorkspaceForWork. -/
def selectWorkspaceForWork (deps : HeartbeatDeps) (work : WorkItems) :
    Option SelectedWorkspace :=
  firstWithPath deps (sortCandidates (buildCandidates work))

/-- Embeds HeartbeatService.checkForWork: pending mentions and assigned
tasks from the repositories; the relevant-activity list is always empty
in the source. -/
def checkForWork (deps : HeartbeatDeps) (agent : AgentRole) : WorkItems :=
  ⟨deps.pendingMentionsFor agent.id, deps.tasksForAgent agent.id, []⟩

/-- Work test of a heartbeat run: at least one pending mention or one
assigned task. -/
def hasWork (w : WorkItems) : Bool :=
  decide (0 < w.pendingMentions.length) || decide (0 < w.assignedTasks.length)

/-- Prompt lines of one pending mention. -/
def mentionLines (m : AgentMention) : List String :=
  ("- Type: " ++ m.mentionType) ::
    (match m.context with
     | some ctx => ["  Context: " ++ ctx]
     | none => [])

/-- Prompt line of one assigned task. -/
def taskLine (t : Task) : String := "- [" ++ t.status ++ "] " ++ t.title

/-- Embeds HeartbeatService.buildHeartbeatPrompt, the synthesized summary
of the found work placed in the created task. -/
def buildHeartbeatPrompt (deps : HeartbeatDeps) (agent : AgentRole)
    (work : WorkItems) (workspacePath : Option String) : String :=
  let header := ["You are " ++ agent.displayName ++
    ", waking up for a scheduled heartbeat check.", ""]
  let persona := match deps.rolePersona agent workspacePath with
    | some p => [p, ""]
    | none => []
  let mentionSec :=
    if 0 < work.pendingMentions.length then
      ("## Pending @Mentions" ::
        work.pendingMentions.foldr (fun m acc => mentionLines m ++ acc) []) ++ [""]
    else []
  let taskSec :=
    if 0 < work.assignedTasks.length then
      ("## Assigned Tasks" :: work.assignedTasks.map taskLine) ++ [""]
    else []
  let instructions := "## Instructions" ::
    (if 0 < work.pendingMentions.length ∨ 0 < work.assignedTasks.length then
      ["Please review the above items and take appropriate action.",
       "For mentions, acknowledge them and respond as needed.",
       "For assigned tasks, continue working on them or report any blockers."]
    else ["No pending work found. HEARTBEAT_OK."])
  String.intercalate "\n" (header ++ persona ++ mentionSec ++ taskSec ++ instructions)

/-- Result returned when the concurrency guard rejects a run. -/
def guardResult (agentId : String) : HeartbeatResult :=
  ⟨agentId, .error, 0, 0, 0, some "Heartbeat already running", none⟩

/-- Base result of a run over the found work items. -/
def baseResult (agent : AgentRole) (w : WorkItems) : HeartbeatResult :=
  ⟨agent.id, .ok, w.pendingMentions.length, w.assignedTasks.length,
    w.relevantActivities.length, none, none⟩

/-- Event constructor of the run. -/
def mkEvent (t : HeartbeatEventType) (agent : AgentRole) (now : Int)
    (r : Option HeartbeatResult) : HeartbeatEvent :=
  ⟨t, agent.id, agent.displayName, now, r⟩

/-- Observable effects of one heartbeat run: the returned result, the
emitted events, the created tasks and the written status updates. -/
structure RunEffects where
  result : HeartbeatResult
  events : List HeartbeatEvent
  tasksCreated : List TaskCreation
  statusUpdates : List StatusUpdate
deriving DecidableEq

/-- Effects of the work-found branch of executeHeartbeat: select a
workspace, build the prompt, create one task when a workspace id
resolves, and emit started, work_found and completed events. -/
def workRun (deps : HeartbeatDeps) (now : Int) (agent : AgentRole)
    (work : WorkItems) : RunEffects :=
  let selected := selectWorkspaceForWork deps work
  let workspacePath := match selected with
    | some s => some s.workspacePath
    | none => deps.defaultWorkspacePath
  let prompt := buildHeartbeatPrompt deps agent work workspacePath
  let workspaceId := match selected with
    | some s => some s.workspaceId
    | none => deps.defaultWorkspaceId
  let r0 := { baseResult agent work with status := HeartbeatRunStatus.workDone }
  match workspaceId with
  | some wid =>
    let creation : TaskCreation :=
      ⟨wid, prompt, "Heartbeat: " ++ agent.displayName, some agent.id⟩
    let r := { r0 with taskCreated := some (deps.createTaskId creation) }
    { result := r,
      events := [mkEvent .started agent now none,
                 mkEvent .workFound agent now (some r),
                 mkEvent .completed agent now (some r)],
      tasksCreated := [creation],
      statusUpdates := [⟨agent.id, .running, none⟩, ⟨agent.id, .sleeping, some now⟩] }
  | none =>
    { result := r0,
      events := [mkEvent .started agent now none,
                 mkEvent .workFound agent now (some r0),
                 mkEvent .completed agent now (some r0)],
      tasksCreated := [],
      statusUpdates := [⟨agent.id, .running, none⟩, ⟨agent.id, .sleeping, some now⟩] }

/-- Effects of the no-work branch of executeHeartbeat: one no_work event
between started and completed, no task created. -/
def noWorkRun (now : Int) (agent : AgentRole) (work : WorkItems) : RunEffects :=
  let r := baseResult agent work
  { result := r,
    events := [mkEvent .started agent now none,
               mkEvent .noWork agent now (some r),
               mkEvent .completed agent now (some r)],
    tasksCreated := [],
    statusUpdates := [⟨agent.id, .running, none⟩, ⟨agent.id, .sleeping, some now⟩] }

/-- Effects of a run past the concurrency guard. -/
def normalRun (deps : HeartbeatDeps) (now : Int) (agent : AgentRole) : RunEffects :=
  let work := checkForWork deps agent
  if hasWork work then workRun deps now agent work else noWorkRun now agent work

/-- Removal of an agent from the running set. -/
def clearRunning (running : String → Bool) (agentId : String) : String → Bool :=
  fun x => if x = agentId then false else running x

/-- Full output of one heartbeat entry: the observable effects and the
running set left behind. -/
structure RunOutput where
  effects : RunEffects
  runningAfter : String → Bool

/-- Embeds HeartbeatService.executeHeartbeat.  The concurrency guard is
checked at entry: a run already in progress for the agent returns the
guard error with no effects and an unchanged running set; otherwise the
run executes and clears the running flag of the agent at the end. -/
def executeHeartbeat (deps : HeartbeatDeps) (running : String → Bool)
    (now : Int) (agent : AgentRole) : RunOutput :=
  if running agent.id then
    ⟨⟨guardResult agent.id, [], [], []⟩, running⟩
  else
    ⟨normalRun deps now agent, clearRunning running agent.id⟩

/-- Embeds HeartbeatService.triggerHeartbeat: an unknown agent role id
returns an error result and touches nothing. -/
def triggerHeartbeat (deps : HeartbeatDeps) (running : String → Bool)
    (now : Int) (agentRoleId : String) : RunOutput :=
  match deps.findById agentRoleId with
  | none =>
    ⟨⟨⟨agentRoleId, .error, 0, 0, 0, some "Agent role not found", none⟩, [], [], []⟩,
      running⟩
  | some agent => executeHeartbeat deps running now agent

/-- Concrete dependency fixture with no repository contents, used as a
witness input. -/
def sampleDeps : HeartbeatDeps :=
  ⟨fun _ => none, fun _ => [], fun _ => [], fun _ => none, none, none,
   fun _ => "t", fun _ _ => none⟩

/-- Concrete agent fixture used as a witness input. -/
def sampleAgent : AgentRole := ⟨"agent-1", "Agent One", true, none, none, none⟩

/-- Concrete dependency fixture holding one mention for workspace wsB and
one assigned task for workspace wsA, every workspace path registered. -/
def twoWsDeps : HeartbeatDeps :=
  ⟨fun _ => none,
   fun _ => [⟨some "wsB", 100, "direct_mention", none⟩],
   fun _ => [⟨"t1", "wsA", some 50, "pending", "Fix the docs"⟩],
   fun _ => some "/ws/path",
   none, none, fun _ => "task-9", fun _ _ => none⟩

/-- Concrete dependency fixture holding one mention whose workspace has no
registered path, with no default workspace. -/
def noPathDeps : HeartbeatDeps :=
  ⟨fun _ => none,
   fun _ => [⟨some "wsA", 100, "direct_mention", none⟩],
   fun _ => [],
   fun _ => none, none, none, fun _ => "t", fun _ _ => none⟩

end Heartbeat

end CoWork

namespace CoWork

namespace Guardrail

/-- C1: for every command string and guardrail configuration, a blocked
command is never auto-approval safe, regardless of any trust-table entry,
trusted-signature match, or safe-command allowlist match (deny-wins). -/
theorem deny_wins (cfg : GuardrailConfig) (c : String)
    (h : (isCommandBlocked cfg c).blocked = true) :
    isAutoApprovalSafe cfg c = false := by
  unfold isAutoApprovalSafe
  simp [h]

/-- Witness for C1 at a concrete blocked command whose configuration
trusts it by name and by signature. -/
theorem deny_wins_witness :
    (isCommandBlocked ⟨[], ["sudo rm -rf /", "sudo rm -rf <arg>"], ["sudo"], []⟩
        "sudo rm -rf /").blocked = true ∧
    isAutoApprovalSafe ⟨[], ["sudo rm -rf /", "sudo rm -rf <arg>"], ["sudo"], []⟩
        "sudo rm -rf /" = false :=
  ⟨by decide, deny_wins _ _ (by decide)⟩

end Guardrail

namespace ToolRegistry

/-- C8: for every tool name, a wildcard entry in the active restriction
set denies the tool, whatever the workspace permissions and the risk
category of the tool, including read-only tools. -/
theorem wildcard_restriction_denies_all (perms : WorkspacePermissions)
    (categoryOf : String → RiskCategory) (restrictions : List String)
    (toolName : String) (h : restrictions.contains "*" = true) :
    isToolAllowed perms categoryOf restrictions toolName = false := by
  unfold isToolAllowed
  rw [h]
  simp

/-- Witness for C8 at a read-only tool with every permission enabled. -/
theorem wildcard_restriction_denies_all_witness :
    (["*"] : List String).contains "*" = true ∧
    isToolAllowed ⟨true, true, true, true, true⟩ (fun _ => RiskCategory.read)
      ["*"] "read_file" = false :=
  ⟨by decide,
   wildcard_restriction_denies_all ⟨true, true, true, true, true⟩
     (fun _ => RiskCategory.read) ["*"] "read_file" (by decide)⟩

end ToolRegistry

namespace Executor

/-- C7: a step whose description tags it as a verification step, when no
matching artifact of the tool output is newer than the step start, is
marked failed with the explicit no-corroborating-evidence error, whatever
the planner asserts. -/
theorem verification_step_requires_evidence (step : Step) (startTime : Int)
    (matchesPat : Artifact → Bool) (artifacts : List Artifact) (planner : Bool)
    (hver : isVerificationStep step.description = true)
    (hstale : ∀ a ∈ artifacts, matchesPat a = true → a.modified ≤ startTime) :
    executeStep step startTime matchesPat artifacts planner =
      { step with status := StepStatus.failed, error := some noEvidenceError } := by
  unfold executeStep
  rw [hver]
  have hany : (artifacts.any fun a => matchesPat a && decide (startTime < a.modified)) = false := by
    rw [List.any_eq_false]
    intro a ha
    simp only [Bool.and_eq_true, decide_eq_true_eq, not_and]
    intro hm hlt
    exact absurd hlt (not_lt.mpr (hstale a ha hm))
  rw [hany]
  simp

/-- Witness for C7: the only matching artifact predates the step start. -/
theorem verification_step_requires_evidence_witness :
    executeStep ⟨"2", "Verify: Confirm the generated image file exists", .pending, none⟩
        3600000 (fun _ => true) [⟨"old.png", 0⟩] true =
      ⟨"2", "Verify: Confirm the generated image file exists", .failed,
        some noEvidenceError⟩ :=
  verification_step_requires_evidence
    ⟨"2", "Verify: Confirm the generated image file exists", .pending, none⟩
    3600000 (fun _ => true) [⟨"old.png", 0⟩] true (by decide) (by decide)

end Executor

namespace Heartbeat

/-- C3: the concurrency guard of executeHeartbeat.  A run entered while
the same agent is already running produces the error result Heartbeat
already running, no events, no task creation, no status update, and
leaves the running set unchanged; and the effects of a run depend only on
the running flag of that agent, so flags of other agents never affect
it. -/
theorem heartbeat_concurrency_guard :
    (∀ (deps : HeartbeatDeps) (running : String → Bool) (now : Int) (agent : AgentRole),
      running agent.id = true →
        executeHeartbeat deps running now agent =
          ⟨⟨guardResult agent.id, [], [], []⟩, running⟩) ∧
    (∀ (deps : HeartbeatDeps) (r1 r2 : String → Bool) (now : Int) (agent : AgentRole),
      r1 agent.id = r2 agent.id →
        (executeHeartbeat deps r1 now agent).effects =
          (executeHeartbeat deps r2 now agent).effects) := by
  constructor
  · intro deps running now agent h
    unfold executeHeartbeat
    rw [h]
    simp
  · intro deps r1 r2 now agent h
    unfold executeHeartbeat
    rw [h]
    cases hc : r2 agent.id <;> simp [hc]

/-- Witness for C3: a run rejected by the guard, and a pair of running
sets differing only on another agent giving identical effects. -/
theorem heartbeat_concurrency_guard_witness :
    (executeHeartbeat sampleDeps (fun x => x == "agent-1") 0 sampleAgent =
      ⟨⟨guardResult sampleAgent.id, [], [], []⟩, fun x => x == "agent-1"⟩) ∧
    ((executeHeartbeat sampleDeps (fun _ => false) 0 sampleAgent).effects =
      (executeHeartbeat sampleDeps (fun x => x == "agent-2") 0 sampleAgent).effects) :=
  ⟨heartbeat_concurrency_guard.1 sampleDeps (fun x => x == "agent-1") 0 sampleAgent
     (by decide),
   heartbeat_concurrency_guard.2 sampleDeps (fun _ => false)
     (fun x => x == "agent-2") 0 sampleAgent (by decide)⟩

/-- C5: a heartbeat run finding zero pending mentions and zero assigned
tasks emits exactly one no_work event and creates zero tasks. -/
theorem heartbeat_no_work_single_event (deps : HeartbeatDeps)
    (running : String → Bool) (now : Int) (agent : AgentRole)
    (hrun : running agent.id = false)
    (hm : deps.pendingMentionsFor agent.id = [])
    (ht : deps.tasksForAgent agent.id = []) :
    ((executeHeartbeat deps running now agent).effects.events.countP
        (fun e => e.type == HeartbeatEventType.noWork) = 1) ∧
    (executeHeartbeat deps running now agent).effects.tasksCreated = [] := by
  have heff : (executeHeartbeat deps running now agent).effects =
      noWorkRun now agent ⟨[], [], []⟩ := by
    unfold executeHeartbeat
    rw [hrun]
    simp only [Bool.false_eq_true, if_false]
    unfold normalRun checkForWork
    rw [hm, ht]
    simp [hasWork]
  rw [heff]
  unfold noWorkRun
  simp [mkEvent, List.countP_cons, List.countP_nil]

/-- Witness for C5 at empty repositories. -/
theorem heartbeat_no_work_single_event_witness :
    ((executeHeartbeat sampleDeps (fun _ => false) 0 sampleAgent).effects.events.countP
        (fun e => e.type == HeartbeatEventType.noWork) = 1) ∧
    (executeHeartbeat sampleDeps (fun _ => false) 0 sampleAgent).effects.tasksCreated = [] :=
  heartbeat_no_work_single_event sampleDeps (fun _ => false) 0 sampleAgent rfl rfl rfl

/-- C10: triggerHeartbeat of an unknown agent role id returns the error
result Agent role not found with all three work counts zero, emits no
event, creates no task, writes no status update, and leaves the running
set unchanged. -/
theorem trigger_heartbeat_unknown_agent (deps : HeartbeatDeps)
    (running : String → Bool) (now : Int) (aid : String)
    (h : deps.findById aid = none) :
    triggerHeartbeat deps running now aid =
      ⟨⟨⟨aid, .error, 0, 0, 0, some "Agent role not found", none⟩, [], [], []⟩,
        running⟩ := by
  unfold triggerHeartbeat
  rw [h]

/-- Witness for C10 at a fixture whose role repository is empty. -/
theorem trigger_heartbeat_unknown_agent_witness :
    triggerHeartbeat sampleDeps (fun _ => false) 0 "ghost" =
      ⟨⟨⟨"ghost", .error, 0, 0, 0, some "Agent role not found", none⟩, [], [], []⟩,
        fun _ => false⟩ :=
  trigger_heartbeat_unknown_agent sampleDeps (fun _ => false) 0 "ghost" rfl

end Heartbeat

end CoWork

namespace CoWork

namespace Guardrail

/-- Argument-like tokens are not flag tokens, so classification replaces
them with the placeholder. -/
theorem classifyToken_of_argumentLike (t : String) (h : isArgumentLike t = true) :
    classifyToken t = placeholderToken := by
  unfold classifyToken
  have hf : isFlagToken t = false := by
    unfold isArgumentLike at h
    cases hft : isFlagToken t
    · rfl
    · rw [hft] at h
      simp at h
  rw [hf, h]
  simp

/-- C2: two command lines sharing the command name whose later tokens are
pairwise either identical or both argument-like produce the identical
signature, and every argument-like token position contributes the generic
placeholder to the signature token list. -/
theorem signature_invariant_under_argument_substitution
    (c1 c2 : String) (nm : String) (r1 r2 : List String)
    (h1 : tokenize c1 = nm :: r1) (h2 : tokenize c2 = nm :: r2)
    (hrel : List.Forall₂
      (fun a b => a = b ∨ (isArgumentLike a = true ∧ isArgumentLike b = true)) r1 r2) :
    getCommandSignature c1 = getCommandSignature c2 ∧
    (∀ a ∈ r1, isArgumentLike a = true → placeholderToken ∈ signatureTokens c1) := by
  have hmap : r1.map classifyToken = r2.map classifyToken := by
    clear h1 h2
    induction hrel with
    | nil => rfl
    | cons hab htail ih =>
      rcases hab with heq | ⟨ha, hb⟩
      · simp only [List.map_cons, heq, ih]
      · simp only [List.map_cons, ih,
          classifyToken_of_argumentLike _ ha, classifyToken_of_argumentLike _ hb]
  have hsig : signatureTokens c1 = signatureTokens c2 := by
    unfold signatureTokens
    rw [h1, h2]
    show nm :: r1.map classifyToken = nm :: r2.map classifyToken
    rw [hmap]
  refine ⟨by unfold getCommandSignature; rw [hsig], ?_⟩
  intro a ha hA
  unfold signatureTokens
  rw [h1]
  show placeholderToken ∈ nm :: r1.map classifyToken
  apply List.mem_cons_of_mem
  rw [← classifyToken_of_argumentLike a hA]
  exact List.mem_map_of_mem _ ha

/-- Witness for C2 at two sips invocations differing only in their quoted
path argument. -/
theorem signature_invariant_witness :
    getCommandSignature "sips -z 9 \"/a/A.png\"" = getCommandSignature "sips -z 9 \"/b/B.png\"" ∧
    placeholderToken ∈ signatureTokens "sips -z 9 \"/a/A.png\"" := by
  have h := signature_invariant_under_argument_substitution
    "sips -z 9 \"/a/A.png\"" "sips -z 9 \"/b/B.png\"" "sips"
    ["-z", "9", "\"/a/A.png\""] ["-z", "9", "\"/b/B.png\""]
    (by decide) (by decide)
    (List.Forall₂.cons (Or.inl rfl)
      (List.Forall₂.cons (Or.inr ⟨by decide, by decide⟩)
        (List.Forall₂.cons (Or.inr ⟨by decide, by decide⟩) List.Forall₂.nil)))
  exact ⟨h.1, h.2 "\"/a/A.png\"" (by decide) (by decide)⟩

end Guardrail

namespace Search

/-- Unfolding equation of the retry loop at positive fuel. -/
theorem retryGo_succ {R : Type} (search : Nat → Except (Option String) R)
    (attempt fuel : Nat) :
    retryGo search attempt (fuel + 1) =
      match search attempt with
      | Except.ok r => ⟨Except.ok r, 1, []⟩
      | Except.error msg =>
        if isTransientSearchError msg && decide (0 < fuel) then
          ⟨(retryGo search (attempt + 1) fuel).result,
            (retryGo search (attempt + 1) fuel).attempts + 1,
            400 * attempt :: (retryGo search (attempt + 1) fuel).delays⟩
        else ⟨Except.error (msg.getD "Search failed"), 1, []⟩ := rfl

/-- Retry loop outcome when every attempt in range fails with the same
transient error message. -/
theorem retryGo_all_transient {R : Type} (search : Nat → Except (Option String) R)
    (m : String) (htr : isTransientSearchError (some m) = true) :
    ∀ (k attempt : Nat), 1 ≤ k → 1 ≤ attempt →
      (∀ i, attempt ≤ i → i < attempt + k → search i = Except.error (some m)) →
      retryGo search attempt k =
        ⟨Except.error m, k, (List.range (k - 1)).map (fun j => 400 * (attempt + j))⟩ := by
  intro k
  induction k with
  | zero => intro attempt h1; exact absurd h1 (by omega)
  | succ k ih =>
    intro attempt _ hatt hfail
    have hs : search attempt = Except.error (some m) :=
      hfail attempt le_rfl (by omega)
    rcases Nat.eq_zero_or_pos k with hk0 | hkpos
    · subst hk0
      rw [retryGo_succ, hs]
      simp [htr]
    · have hcond : (isTransientSearchError (some m) && decide (0 < k)) = true := by
        simp [htr, hkpos]
      have hrest := ih (attempt + 1) hkpos (by omega)
        (fun i hi1 hi2 => hfail i (by omega) (by omega))
      rw [retryGo_succ, hs]
      dsimp only
      rw [if_pos hcond, hrest]
      have hrange : List.range k = 0 :: (List.range (k - 1)).map Nat.succ := by
        have hk : k = (k - 1) + 1 := by omega
        rw [hk, List.range_succ_eq_map]
        rw [← hk]
      congr 1
      rw [Nat.add_sub_cancel, hrange]
      simp only [List.map_cons, List.map_map, Nat.add_zero]
      congr 1
      apply List.map_congr_left
      intro j hj
      simp only [Function.comp_apply]
      omega

/-- C6: a provider call failing with a transient error on every attempt is
retried up to the bounded maximum, sleeping 400 milliseconds before the
first retry and increasing linearly afterwards, and the last error is
thrown after the final attempt; a call failing with a permanent error
surfaces immediately after a single attempt with no sleep. -/
theorem search_retry_policy :
    (∀ (R : Type) (search : Nat → Except (Option String) R) (n : Nat) (m : String),
      1 ≤ n →
      isTransientSearchError (some m) = true →
      (∀ i, 1 ≤ i → i ≤ n → search i = Except.error (some m)) →
      searchWithRetry search n =
        ⟨Except.error m, n, (List.range (n - 1)).map (fun j => 400 * (1 + j))⟩) ∧
    (∀ (R : Type) (search : Nat → Except (Option String) R) (n : Nat) (m : String),
      1 ≤ n →
      isTransientSearchError (some m) = false →
      search 1 = Except.error (some m) →
      searchWithRetry search n = ⟨Except.error m, 1, []⟩) := by
  constructor
  · intro R search n m hn htr hfail
    unfold searchWithRetry
    exact retryGo_all_transient search m htr n 1 hn le_rfl
      (fun i hi1 hi2 => hfail i hi1 (by omega))
  · intro R search n m hn htr hs
    unfold searchWithRetry
    rcases n with _ | n0
    · omega
    · unfold retryGo
      rw [hs]
      simp [htr]

/-- Witness for C6: three transient failures retried with delays 400 and
800 before throwing the rate-limit error, and a permanent bad-credentials
error surfacing after one attempt. -/
theorem search_retry_policy_witness :
    searchWithRetry
        (fun _ => (Except.error (some "Rate limit exceeded") : Except (Option String) Unit)) 3 =
      ⟨Except.error "Rate limit exceeded", 3, [400, 800]⟩ ∧
    searchWithRetry
        (fun _ => (Except.error (some "Invalid API key") : Except (Option String) Unit)) 3 =
      ⟨Except.error "Invalid API key", 1, []⟩ := by
  constructor
  · have h := search_retry_policy.1 Unit
      (fun _ => Except.error (some "Rate limit exceeded")) 3 "Rate limit exceeded"
      (by omega) (by decide) (fun i _ _ => rfl)
    have hd : (List.range (3 - 1)).map (fun j => 400 * (1 + j)) = [400, 800] := by decide
    rw [hd] at h
    exact h
  · exact search_retry_policy.2 Unit
      (fun _ => Except.error (some "Invalid API key")) 3 "Invalid API key"
      (by omega) (by decide) rfl

end Search

end CoWork

namespace CoWork

namespace Gate

/-- Attempt rejected by an active lockout: the session is unchanged. -/
theorem attemptPairing_locked (s : PairingSession) (t : Int) (c : String)
    (h : t < s.lockoutUntil) :
    attemptPairing s t c = (s, PairingOutcome.rejectedLockedOut) := by
  unfold attemptPairing
  rw [if_pos h]

/-- Failed attempt below the lockout threshold: only the counter moves. -/
theorem attemptPairing_fail_below (s : PairingSession) (t : Int) (c : String)
    (hnl : ¬ t < s.lockoutUntil) (hc : (c == s.code) = false)
    (hfa : s.failedAttempts + 1 < maxFailedAttempts) :
    attemptPairing s t c =
      ({ s with failedAttempts := s.failedAttempts + 1 }, PairingOutcome.rejectedInvalid) := by
  unfold attemptPairing
  rw [if_neg hnl, hc]
  simp only [Bool.false_and, Bool.false_eq_true, if_false]
  rw [if_neg (by omega)]

/-- Failed attempt reaching the threshold: the lockout deadline is set. -/
theorem attemptPairing_reach_lockout (s : PairingSession) (t : Int) (c : String)
    (hnl : ¬ t < s.lockoutUntil) (hc : (c == s.code) = false)
    (hfa : maxFailedAttempts ≤ s.failedAttempts + 1) :
    attemptPairing s t c =
      ({ s with failedAttempts := s.failedAttempts + 1,
                lockoutUntil := t + lockoutDurationMs }, PairingOutcome.rejectedInvalid) := by
  unfold attemptPairing
  rw [if_neg hnl, hc]
  simp only [Bool.false_and, Bool.false_eq_true, if_false]
  rw [if_pos hfa]

/-- C9: five consecutive failed pairing attempts on a fresh session put
the session in lockout until fifteen minutes past the fifth failure, the
code of the session is unchanged, and during the lockout window every
attempt, including one presenting the originally correct code, is
rejected as locked out and leaves the session unchanged, so only elapsing
time can end the lockout. -/
theorem pairing_lockout_after_five_failures
    (s0 : PairingSession) (t1 t2 t3 t4 t5 : Int) (c1 c2 c3 c4 c5 : String)
    (hfa : s0.failedAttempts = 0) (hlk : s0.lockoutUntil = 0)
    (ht1 : 0 ≤ t1) (ht2 : 0 ≤ t2) (ht3 : 0 ≤ t3) (ht4 : 0 ≤ t4) (ht5 : 0 ≤ t5)
    (hc1 : (c1 == s0.code) = false) (hc2 : (c2 == s0.code) = false)
    (hc3 : (c3 == s0.code) = false) (hc4 : (c4 == s0.code) = false)
    (hc5 : (c5 == s0.code) = false) :
    (runFailures s0 [(t1, c1), (t2, c2), (t3, c3), (t4, c4), (t5, c5)]).lockoutUntil =
      t5 + lockoutDurationMs ∧
    (runFailures s0 [(t1, c1), (t2, c2), (t3, c3), (t4, c4), (t5, c5)]).code = s0.code ∧
    ∀ (t : Int) (c : String), t < t5 + lockoutDurationMs →
      attemptPairing (runFailures s0 [(t1, c1), (t2, c2), (t3, c3), (t4, c4), (t5, c5)]) t c =
        (runFailures s0 [(t1, c1), (t2, c2), (t3, c3), (t4, c4), (t5, c5)],
          PairingOutcome.rejectedLockedOut) := by
  have e1 : attemptPairing s0 t1 c1 =
      ({ s0 with failedAttempts := s0.failedAttempts + 1 }, PairingOutcome.rejectedInvalid) :=
    attemptPairing_fail_below s0 t1 c1 (by omega) hc1
      (by unfold maxFailedAttempts; omega)
  have e2 : attemptPairing { s0 with failedAttempts := s0.failedAttempts + 1 } t2 c2 =
      ({ s0 with failedAttempts := s0.failedAttempts + 2 }, PairingOutcome.rejectedInvalid) := by
    have := attemptPairing_fail_below { s0 with failedAttempts := s0.failedAttempts + 1 }
      t2 c2 (by simp only; omega) hc2 (by simp only; unfold maxFailedAttempts; omega)
    simpa using this
  have e3 : attemptPairing { s0 with failedAttempts := s0.failedAttempts + 2 } t3 c3 =
      ({ s0 with failedAttempts := s0.failedAttempts + 3 }, PairingOutcome.rejectedInvalid) := by
    have := attemptPairing_fail_below { s0 with failedAttempts := s0.failedAttempts + 2 }
      t3 c3 (by simp only; omega) hc3 (by simp only; unfold maxFailedAttempts; omega)
    simpa using this
  have e4 : attemptPairing { s0 with failedAttempts := s0.failedAttempts + 3 } t4 c4 =
      ({ s0 with failedAttempts := s0.failedAttempts + 4 }, PairingOutcome.rejectedInvalid) := by
    have := attemptPairing_fail_below { s0 with failedAttempts := s0.failedAttempts + 3 }
      t4 c4 (by simp only; omega) hc4 (by simp only; unfold maxFailedAttempts; omega)
    simpa using this
  have e5 : attemptPairing { s0 with failedAttempts := s0.failedAttempts + 4 } t5 c5 =
      ({ s0 with failedAttempts := s0.failedAttempts + 5,
                 lockoutUntil := t5 + lockoutDurationMs }, PairingOutcome.rejectedInvalid) := by
    have := attemptPairing_reach_lockout { s0 with failedAttempts := s0.failedAttempts + 4 }
      t5 c5 (by simp only; omega) hc5 (by simp only; unfold maxFailedAttempts; omega)
    simpa using this
  have hrunEq : runFailures s0 [(t1, c1), (t2, c2), (t3, c3), (t4, c4), (t5, c5)] =
      { s0 with failedAttempts := s0.failedAttempts + 5,
                lockoutUntil := t5 + lockoutDurationMs } := by
    unfold runFailures
    rw [e1]
    unfold runFailures
    rw [e2]
    unfold runFailures
    rw [e3]
    unfold runFailures
    rw [e4]
    unfold runFailures
    rw [e5]
    rfl
  rw [hrunEq]
  refine ⟨rfl, rfl, ?_⟩
  intro t c hlt
  exact attemptPairing_locked _ t c (by simp only; omega)

/-- Witness for C9: a fresh six-digit session, five wrong codes, then the
originally correct code rejected inside the lockout window. -/
theorem pairing_lockout_witness :
    attemptPairing
        (runFailures ⟨"246810", 1000000000, 0, 0⟩
          [(1, "000000"), (2, "000000"), (3, "000000"), (4, "000000"), (5, "000000")])
        10 "246810" =
      (runFailures ⟨"246810", 1000000000, 0, 0⟩
          [(1, "000000"), (2, "000000"), (3, "000000"), (4, "000000"), (5, "000000")],
        PairingOutcome.rejectedLockedOut) :=
  (pairing_lockout_after_five_failures ⟨"246810", 1000000000, 0, 0⟩ 1 2 3 4 5
      "000000" "000000" "000000" "000000" "000000" rfl rfl
      (by decide) (by decide) (by decide) (by decide) (by decide)
      (by decide) (by decide) (by decide) (by decide) (by decide)).2.2
    10 "246810" (by decide)

end Gate

end CoWork

namespace CoWork

namespace Heartbeat

/-- Reflexivity of the selection order. -/
theorem candBefore_refl (a : Candidate) : candBefore a a :=
  Or.inr ⟨rfl, Or.inr ⟨rfl, le_refl _⟩⟩

/-- Totality of the selection order. -/
theorem candBefore_total (a b : Candidate) : candBefore a b ∨ candBefore b a := by
  unfold candBefore
  rcases lt_trichotomy a.score b.score with h | h | h
  · right; left; exact h
  · rcases lt_trichotomy a.priority b.priority with hp | hp | hp
    · right; right; exact ⟨h.symm, Or.inl hp⟩
    · rcases le_total a.workspaceId b.workspaceId with hw | hw
      · left; right; exact ⟨h, Or.inr ⟨hp, hw⟩⟩
      · right; right; exact ⟨h.symm, Or.inr ⟨hp.symm, hw⟩⟩
    · left; right; exact ⟨h, Or.inl hp⟩
  · left; left; exact h

/-- Transitivity of the selection order. -/
theorem candBefore_trans (a b c : Candidate)
    (hab : candBefore a b) (hbc : candBefore b c) : candBefore a c := by
  unfold candBefore at hab hbc ⊢
  rcases hab with h1 | ⟨h1, h2⟩
  · rcases hbc with g1 | ⟨g1, g2⟩
    · left; omega
    · left; omega
  · rcases hbc with g1 | ⟨g1, g2⟩
    · left; omega
    · refine Or.inr ⟨by omega, ?_⟩
      rcases h2 with h2 | ⟨h2, h3⟩
      · rcases g2 with g2 | ⟨g2, g3⟩
        · left; omega
        · left; omega
      · rcases g2 with g2 | ⟨g2, g3⟩
        · left; omega
        · exact Or.inr ⟨by omega, le_trans h3 g3⟩

/-- Membership through an insertion step. -/
theorem insertCand_mem (x c : Candidate) (l : List Candidate) :
    x ∈ insertCand c l ↔ x = c ∨ x ∈ l := by
  induction l with
  | nil => simp [insertCand]
  | cons d ds ih =>
    unfold insertCand
    by_cases h : candBefore c d
    · rw [if_pos h]
      simp [List.mem_cons]
    · rw [if_neg h]
      simp [List.mem_cons, ih]
      tauto

/-- Membership through the comparator sort. -/
theorem sortCandidates_mem (x : Candidate) (l : List Candidate) :
    x ∈ sortCandidates l ↔ x ∈ l := by
  induction l with
  | nil => simp [sortCandidates]
  | cons c cs ih =>
    unfold sortCandidates
    rw [insertCand_mem, ih]
    simp [List.mem_cons]

/-- Head of the comparator sort comes before every element of the list. -/
theorem sortCandidates_head_before (l : List Candidate) :
    ∀ (c : Candidate) (rest : List Candidate), sortCandidates l = c :: rest →
      ∀ d ∈ l, candBefore c d := by
  induction l with
  | nil =>
    intro c rest h
    simp [sortCandidates] at h
  | cons a as ih =>
    intro c rest h d hd
    unfold sortCandidates at h
    cases hs : sortCandidates as with
    | nil =>
      rw [hs] at h
      unfold insertCand at h
      obtain ⟨hac, -⟩ := List.cons_eq_cons.mp h
      rcases List.mem_cons.mp hd with hda | hdas
      · rw [← hac, hda]
        exact candBefore_refl a
      · exfalso
        have hmem := (sortCandidates_mem d as).mpr hdas
        rw [hs] at hmem
        simp at hmem
    | cons b bs =>
      rw [hs] at h
      unfold insertCand at h
      by_cases hab : candBefore a b
      · rw [if_pos hab] at h
        obtain ⟨hac, -⟩ := List.cons_eq_cons.mp h
        subst hac
        rcases List.mem_cons.mp hd with hda | hdas
        · rw [hda]
          exact candBefore_refl a
        · exact candBefore_trans a b d hab (ih b bs hs d hdas)
      · rw [if_neg hab] at h
        obtain ⟨hbc, -⟩ := List.cons_eq_cons.mp h
        subst hbc
        rcases List.mem_cons.mp hd with hda | hdas
        · rw [hda]
          rcases candBefore_total a b with htot | htot
          · exact absurd htot hab
          · exact htot
        · exact ih b bs hs d hdas

/-- Counterexample input for C4: a heartbeat run that finds work (one
pending mention, status work_done) but creates no task, because the
mentioned workspace has no registered path and no default workspace is
configured. -/
theorem heartbeat_found_work_without_task :
    hasWork (checkForWork noPathDeps sampleAgent) = true ∧
    (executeHeartbeat noPathDeps (fun _ => false) 0 sampleAgent).effects.result.status =
      HeartbeatRunStatus.workDone ∧
    (executeHeartbeat noPathDeps (fun _ => false) 0 sampleAgent).effects.result.pendingMentions = 1 ∧
    (executeHeartbeat noPathDeps (fun _ => false) 0 sampleAgent).effects.tasksCreated = [] :=
  ⟨by decide, by decide, by decide, by decide⟩

/-- C4 (amended): when a heartbeat run past the guard finds work, the
candidate list is nonvacuous, and every candidate workspace has a
registered non-blank path, the selected workspace is the head of the
comparator sort, which comes before every candidate under the order of
maximal score, then maximal priority, then lexically least workspace id,
and exactly one task carrying the synthesized work summary is created,
addressed to that workspace. -/
theorem heartbeat_selects_best_workspace
    (deps : HeartbeatDeps) (running : String → Bool) (now : Int) (agent : AgentRole)
    (best : Candidate) (rest : List Candidate)
    (hrun : running agent.id = false)
    (hwork : hasWork (checkForWork deps agent) = true)
    (hsort : sortCandidates (buildCandidates (checkForWork deps agent)) = best :: rest)
    (hpaths : ∀ c ∈ buildCandidates (checkForWork deps agent),
      ∃ p, deps.getWorkspacePath c.workspaceId = some p ∧ ¬ trimStr p = "") :
    (∀ d ∈ buildCandidates (checkForWork deps agent), candBefore best d) ∧
    ∃ p, deps.getWorkspacePath best.workspaceId = some p ∧
      (executeHeartbeat deps running now agent).effects.tasksCreated =
        [⟨best.workspaceId,
          buildHeartbeatPrompt deps agent (checkForWork deps agent) (some p),
          "Heartbeat: " ++ agent.displayName, some agent.id⟩] := by
  refine ⟨sortCandidates_head_before _ best rest hsort, ?_⟩
  have hbestmem : best ∈ buildCandidates (checkForWork deps agent) := by
    rw [← sortCandidates_mem, hsort]
    exact List.mem_cons_self _ _
  obtain ⟨p, hp, hpne⟩ := hpaths best hbestmem
  refine ⟨p, hp, ?_⟩
  have hsel : selectWorkspaceForWork deps (checkForWork deps agent) =
      some ⟨best.workspaceId, p⟩ := by
    unfold selectWorkspaceForWork
    rw [hsort]
    unfold firstWithPath
    rw [hp]
    dsimp only
    rw [if_neg hpne]
  unfold executeHeartbeat
  rw [hrun]
  simp only [Bool.false_eq_true, if_false]
  unfold normalRun
  dsimp only
  rw [if_pos hwork]
  unfold workRun
  rw [hsel]

/-- Witness for C4: the mention workspace wsB (score 100, weight 2) beats
the task workspace wsA (score 50, weight 1) and receives the single
created task. -/
theorem heartbeat_selects_best_workspace_witness :
    candBefore ⟨"wsB", 100, 2⟩ ⟨"wsA", 50, 1⟩ ∧
    (executeHeartbeat twoWsDeps (fun _ => false) 0 sampleAgent).effects.tasksCreated =
      [⟨"wsB",
        buildHeartbeatPrompt twoWsDeps sampleAgent
          (checkForWork twoWsDeps sampleAgent) (some "/ws/path"),
        "Heartbeat: " ++ sampleAgent.displayName, some sampleAgent.id⟩] := by
  have h := heartbeat_selects_best_workspace twoWsDeps (fun _ => false) 0
    sampleAgent ⟨"wsB", 100, 2⟩ [⟨"wsA", 50, 1⟩] rfl (by decide) (by decide)
    (fun c _ => ⟨"/ws/path", rfl, by decide⟩)
  refine ⟨h.1 ⟨"wsA", 50, 1⟩ (by decide), ?_⟩
  obtain ⟨p, hp, htask⟩ := h.2
  have hpp : p = "/ws/path" := by
    have hsome : some p = some "/ws/path" := hp.symm.trans rfl
    exact Option.some_injective _ hsome
  rw [hpp] at htask
  exact htask

end Heartbeat

end CoWork
